import Mathlib

/-!
Verification of the syaOS application bootstrapper (`src-tauri/src/main.rs`).

The program is a thin Tauri shell: its setup closure looks up the webview
window labelled "main"; if present it parses the fixed remote URL, sets the
window title to the empty string and navigates the window to the parsed URL,
propagating any failure with `?`; if absent it does nothing and returns `Ok`.
We embed the closure as a pure function over an explicit window-configuration
state, with the outcomes of the fallible host operations (`set_title`,
`navigate`) supplied by an environment, and record the trace of attempted
operations for the ordering and frame properties.
-/

namespace SyaOS

/-- The fixed URL string literal from `main.rs`:
`Url::parse("https://sya-os.vercel.app")`. -/
def REMOTE_URL : String := "https://sya-os.vercel.app"

/-- Characters allowed after the first character of a URL scheme. -/
def isSchemeTailChar (c : Char) : Bool :=
  c.isAlphanum || c == '+' || c == '-' || c == '.'

/-- Characters allowed in a registered-name host. -/
def isHostChar (c : Char) : Bool :=
  c.isAlphanum || c == '.' || c == '-'

/-- Split a character list at the first colon, returning the parts before and
after it; `none` when no colon occurs. -/
def splitAtColon : List Char → Option (List Char × List Char)
  | [] => none
  | c :: cs =>
    if c == ':' then some ([], cs)
    else
      match splitAtColon cs with
      | none => none
      | some (a, b) => some (c :: a, b)

/-- A parsed absolute URL: scheme, host and path components. -/
structure Url where
  scheme : String
  host : String
  path : String
deriving DecidableEq

/-- Modelled from the spec: the `url` crate's `Url::parse` is not repository
code; the spec requires the string to be "syntactically valid per standard URL
parsing rules" and "a well-formed absolute URL". We model parsing of
authority-based absolute URLs: `scheme "://" host path`, where the scheme
starts with a letter followed by letters, digits, `+`, `-` or `.`, the host is
a nonempty registered name, and an empty path normalizes to "/". Any other
string is rejected. -/
def Url.parse (s : String) : Option Url :=
  match splitAtColon s.data with
  | none => none
  | some (schemeCs, rest) =>
    let schemeOk :=
      match schemeCs with
      | [] => false
      | c :: cs => c.isAlpha && cs.all isSchemeTailChar
    if schemeOk then
      match rest with
      | '/' :: '/' :: hostPath =>
        let hostCs := hostPath.takeWhile (fun c => c != '/')
        let pathCs := hostPath.dropWhile (fun c => c != '/')
        if hostCs ≠ [] ∧ hostCs.all isHostChar then
          some ⟨String.mk schemeCs, String.mk hostCs,
                if pathCs.isEmpty then "/" else String.mk pathCs⟩
        else none
      | _ => none
    else none

/-- The value `Url::parse("https://sya-os.vercel.app")` produces. -/
def mainUrl : Url := ⟨"https", "sya-os.vercel.app", "/"⟩

/-- A webview window of the host configuration: its observable title and the
URL it was last commanded to navigate to (`none` before any navigation). -/
structure Window where
  title : String
  navTarget : Option Url
deriving DecidableEq

/-- The application state the setup closure acts on: the windows defined by
the host configuration, keyed by their labels. -/
structure AppState where
  windows : List (String × Window)
deriving DecidableEq

/-- Look up the first window with the given label. -/
def lookupWin : List (String × Window) → String → Option Window
  | [], _ => none
  | (k, w) :: rest, label => if k = label then some w else lookupWin rest label

/-- Update every window with the given label by `f`, leaving others alone. -/
def updateWin : List (String × Window) → String → (Window → Window) →
    List (String × Window)
  | [], _, _ => []
  | (k, w) :: rest, label, f =>
    (k, if k = label then f w else w) :: updateWin rest label f

/-- `app.get_webview_window(label)` from the Tauri `Manager` trait: the window
with that label, when the configuration defines one. -/
def AppState.get_webview_window (app : AppState) (label : String) :
    Option Window :=
  lookupWin app.windows label

/-- Effect of a successful `window.set_title(t)` on the state. -/
def AppState.set_title (app : AppState) (label : String) (t : String) :
    AppState :=
  ⟨updateWin app.windows label (fun w => { w with title := t })⟩

/-- Effect of a successful `window.navigate(u)` on the state. -/
def AppState.navigate (app : AppState) (label : String) (u : Url) : AppState :=
  ⟨updateWin app.windows label (fun w => { w with navTarget := some u })⟩

/-- The operations the setup closure attempts, in order. -/
inductive Op where
  | parseUrl (s : String)
  | set_title (label : String) (t : String)
  | navigate (label : String) (u : Url)
deriving DecidableEq

/-- Whether an operation is a navigation command. -/
def Op.isNavigate : Op → Bool
  | .navigate _ _ => true
  | _ => false

/-- The error the setup closure propagates with `?`, identified by the
operation that failed. -/
inductive SetupErr where
  | parseErr
  | titleErr
  | navErr
deriving DecidableEq

/-- Outcomes of the fallible host operations, which are external to this
repository: whether `set_title` and `navigate` fail when attempted. -/
structure HostEnv where
  setTitleFails : Bool
  navigateFails : Bool
deriving DecidableEq

deriving instance DecidableEq for Except

/-- What one run of the setup closure produces: the state after it, the trace
of operations it attempted, and its `Result`. -/
structure SetupOutcome where
  app : AppState
  ops : List Op
  result : Except SetupErr Unit
deriving DecidableEq

/-- The setup closure of `main.rs`, with the URL string abstracted (the spec's
test-build substitution point):

```
if let Some(window) = app.get_webview_window("main") {
    let url = Url::parse(urlStr)?;
    window.set_title("")?;
    window.navigate(url)?;
}
Ok(())
```
-/
def setupWith (env : HostEnv) (urlStr : String) (app : AppState) :
    SetupOutcome :=
  match app.get_webview_window "main" with
  | none => ⟨app, [], .ok ()⟩
  | some _ =>
    match Url.parse urlStr with
    | none => ⟨app, [.parseUrl urlStr], .error .parseErr⟩
    | some url =>
      if env.setTitleFails then
        ⟨app, [.parseUrl urlStr, .set_title "main" ""], .error .titleErr⟩
      else
        let app1 := app.set_title "main" ""
        if env.navigateFails then
          ⟨app1, [.parseUrl urlStr, .set_title "main" "",
                  .navigate "main" url], .error .navErr⟩
        else
          ⟨app1.navigate "main" url,
           [.parseUrl urlStr, .set_title "main" "", .navigate "main" url],
           .ok ()⟩

/-- The setup closure as shipped, with the fixed URL constant. -/
def setup (env : HostEnv) (app : AppState) : SetupOutcome :=
  setupWith env REMOTE_URL app

/-- Outcome of `main`: either the host event loop was entered, or the process
terminated fatally with a diagnostic before the event loop began. -/
inductive RunOutcome where
  | running (finalApp : AppState)
  | fatal (msg : String)
deriving DecidableEq

/-- Modelled from the spec: the Tauri host's `run` is not repository code; per
the spec, `run` invokes the setup callback once after the windows are created
and before the event loop begins, a setup error aborts startup before the
event loop, and `main`'s `.expect("error while running tauri application")`
turns that error into process termination with a diagnostic and a non-zero
exit. Returns the outcome together with the operations setup attempted. -/
def runApp (env : HostEnv) (urlStr : String) (app : AppState) :
    RunOutcome × List Op :=
  let out := setupWith env urlStr app
  match out.result with
  | .error _ => (.fatal "error while running tauri application", out.ops)
  | .ok _ => (.running out.app, out.ops)

/-- The bootstrap phases named by the spec's state machine. -/
inductive Phase where
  | Uninit
  | Configured
  | SetupComplete
  | Running
  | Terminated
deriving DecidableEq

/-- Position of a phase in the spec's forward order. -/
def phaseIdx : Phase → Nat
  | .Uninit => 0
  | .Configured => 1
  | .SetupComplete => 2
  | .Running => 3
  | .Terminated => 4

/-- An event of the bootstrap sequence: entering a phase, or the host invoking
the setup callback. -/
inductive BootEvent where
  | enter (p : Phase)
  | invokeSetup
deriving DecidableEq

/-- Modelled from the spec: the bootstrap sequence `main` performs through the
host. Builder configuration and plugin registration happen first, the setup
callback is invoked once, and on setup success the host reaches the running
event loop and eventually terminates, while a setup failure terminates startup
directly. -/
def bootEvents (env : HostEnv) (urlStr : String) (app : AppState) :
    List BootEvent :=
  [.enter .Uninit, .enter .Configured, .invokeSetup] ++
  match (setupWith env urlStr app).result with
  | .ok _ => [.enter .SetupComplete, .enter .Running, .enter .Terminated]
  | .error _ => [.enter .Terminated]

/-- The phases entered during a bootstrap sequence, in order. -/
def phasesOf (es : List BootEvent) : List Phase :=
  es.filterMap fun e =>
    match e with
    | .enter p => some p
    | .invokeSetup => none

/-- How many times the bootstrap sequence invokes the setup callback. -/
def setupCount (es : List BootEvent) : Nat :=
  es.countP fun e =>
    match e with
    | .invokeSetup => true
    | .enter _ => false

/-- A configuration defining exactly the primary window, titled by default. -/
def appMain : AppState := ⟨[("main", ⟨"syaOS", none⟩)]⟩

/-- A configuration with a primary window and one unrelated window. -/
def appTwo : AppState :=
  ⟨[("main", ⟨"syaOS", none⟩), ("side", ⟨"side", none⟩)]⟩

/-- A configuration defining no window labelled "main". -/
def appNoMain : AppState := ⟨[("other", ⟨"other", none⟩)]⟩

/-- The environment in which both host operations succeed. -/
def envOk : HostEnv := ⟨false, false⟩

/-! ## Helper lemmas -/

lemma Url_parse_remote : Url.parse REMOTE_URL = some mainUrl := by decide

lemma lookupWin_updateWin_self (ws : List (String × Window)) (label : String)
    (f : Window → Window) :
    lookupWin (updateWin ws label f) label = (lookupWin ws label).map f := by
  induction ws with
  | nil => rfl
  | cons p rest ih =>
    obtain ⟨k, w⟩ := p
    by_cases h : k = label
    · subst h
      simp [lookupWin, updateWin]
    · simp [lookupWin, updateWin, h, ih]

lemma lookupWin_updateWin_ne (ws : List (String × Window))
    (label l : String) (f : Window → Window) (h : l ≠ label) :
    lookupWin (updateWin ws label f) l = lookupWin ws l := by
  induction ws with
  | nil => rfl
  | cons p rest ih =>
    obtain ⟨k, w⟩ := p
    by_cases hk : k = label
    · subst hk
      simp [lookupWin, updateWin, Ne.symm h, ih]
    · by_cases hl : k = l <;> simp [lookupWin, updateWin, hk, hl, h, ih]

lemma setupWith_no_main (env : HostEnv) (urlStr : String) (app : AppState)
    (h : app.get_webview_window "main" = none) :
    setupWith env urlStr app = ⟨app, [], .ok ()⟩ := by
  unfold setupWith
  rw [h]

lemma setupWith_parse_fail (env : HostEnv) (urlStr : String) (app : AppState)
    (w : Window) (h : app.get_webview_window "main" = some w)
    (hp : Url.parse urlStr = none) :
    setupWith env urlStr app = ⟨app, [.parseUrl urlStr], .error .parseErr⟩ := by
  unfold setupWith
  rw [h, hp]

lemma setupWith_title_fail (env : HostEnv) (urlStr : String) (app : AppState)
    (w : Window) (u : Url) (h : app.get_webview_window "main" = some w)
    (hp : Url.parse urlStr = some u) (ht : env.setTitleFails = true) :
    setupWith env urlStr app =
      ⟨app, [.parseUrl urlStr, .set_title "main" ""], .error .titleErr⟩ := by
  unfold setupWith
  rw [h, hp, ht]
  simp

lemma setupWith_nav_fail (env : HostEnv) (urlStr : String) (app : AppState)
    (w : Window) (u : Url) (h : app.get_webview_window "main" = some w)
    (hp : Url.parse urlStr = some u) (ht : env.setTitleFails = false)
    (hn : env.navigateFails = true) :
    setupWith env urlStr app =
      ⟨app.set_title "main" "",
       [.parseUrl urlStr, .set_title "main" "", .navigate "main" u],
       .error .navErr⟩ := by
  unfold setupWith
  rw [h, hp, ht, hn]
  simp

lemma setupWith_all_ok (env : HostEnv) (urlStr : String) (app : AppState)
    (w : Window) (u : Url) (h : app.get_webview_window "main" = some w)
    (hp : Url.parse urlStr = some u) (ht : env.setTitleFails = false)
    (hn : env.navigateFails = false) :
    setupWith env urlStr app =
      ⟨(app.set_title "main" "").navigate "main" u,
       [.parseUrl urlStr, .set_title "main" "", .navigate "main" u],
       .ok ()⟩ := by
  unfold setupWith
  rw [h, hp, ht, hn]
  simp

/-! ## Claims -/

/-- C1: for every window configuration in which a window labelled "main"
exists and every setup operation succeeds, after the setup callback completes
the title of the "main" window equals the empty string. -/
theorem C1_main_title_empty_after_setup (env : HostEnv) (app : AppState)
    (hmain : (app.get_webview_window "main").isSome = true)
    (ht : env.setTitleFails = false) (hn : env.navigateFails = false) :
    (setup env app).result = .ok () ∧
    ∃ w, (setup env app).app.get_webview_window "main" = some w ∧
      w.title = "" := by
  obtain ⟨w, hw⟩ := Option.isSome_iff_exists.mp hmain
  unfold setup
  rw [setupWith_all_ok env REMOTE_URL app w mainUrl hw Url_parse_remote ht hn]
  refine ⟨rfl, ?_⟩
  simp only [AppState.get_webview_window, AppState.set_title, AppState.navigate,
    lookupWin_updateWin_self]
  rw [show lookupWin app.windows "main" = some w from hw]
  exact ⟨_, rfl, rfl⟩

/-- Witness for C1 at the one-window configuration with both host operations
succeeding. -/
theorem C1_main_title_empty_after_setup_witness :
    (appMain.get_webview_window "main").isSome = true ∧
    envOk.setTitleFails = false ∧ envOk.navigateFails = false ∧
    ((setup envOk appMain).result = .ok () ∧
     ∃ w, (setup envOk appMain).app.get_webview_window "main" = some w ∧
       w.title = "") :=
  ⟨by decide, by decide, by decide,
   C1_main_title_empty_after_setup envOk appMain (by decide) (by decide)
     (by decide)⟩

/-- C2: when "main" exists and setup succeeds, the URL the window is commanded
to navigate to equals the parse of the fixed constant string
"https://sya-os.vercel.app", exactly: the parse operation in the trace carries
the unmutated constant, the navigate command carries its parse, and the
window's navigation target afterwards equals that parse. -/
theorem C2_navigation_target_is_parsed_constant (env : HostEnv)
    (app : AppState) (hmain : (app.get_webview_window "main").isSome = true)
    (ht : env.setTitleFails = false) (hn : env.navigateFails = false) :
    ∃ u, Url.parse "https://sya-os.vercel.app" = some u ∧
      (setup env app).ops =
        [.parseUrl REMOTE_URL, .set_title "main" "", .navigate "main" u] ∧
      ∃ w, (setup env app).app.get_webview_window "main" = some w ∧
        w.navTarget = some u := by
  obtain ⟨w, hw⟩ := Option.isSome_iff_exists.mp hmain
  unfold setup
  rw [setupWith_all_ok env REMOTE_URL app w mainUrl hw Url_parse_remote ht hn]
  refine ⟨mainUrl, Url_parse_remote, rfl, ?_⟩
  simp only [AppState.get_webview_window, AppState.set_title, AppState.navigate,
    lookupWin_updateWin_self]
  rw [show lookupWin app.windows "main" = some w from hw]
  exact ⟨_, rfl, rfl⟩

/-- Witness for C2 at the one-window configuration with both host operations
succeeding. -/
theorem C2_navigation_target_is_parsed_constant_witness :
    (appMain.get_webview_window "main").isSome = true ∧
    envOk.setTitleFails = false ∧ envOk.navigateFails = false ∧
    ∃ u, Url.parse "https://sya-os.vercel.app" = some u ∧
      (setup envOk appMain).ops =
        [.parseUrl REMOTE_URL, .set_title "main" "", .navigate "main" u] ∧
      ∃ w, (setup envOk appMain).app.get_webview_window "main" = some w ∧
        w.navTarget = some u :=
  ⟨by decide, by decide, by decide,
   C2_navigation_target_is_parsed_constant envOk appMain (by decide)
     (by decide) (by decide)⟩

/-- C3: when no window labelled "main" exists, the setup callback returns
`Ok`, attempts no operation, and leaves the whole window state unchanged. -/
theorem C3_missing_main_is_noop (env : HostEnv) (app : AppState)
    (h : app.get_webview_window "main" = none) :
    setup env app = ⟨app, [], .ok ()⟩ :=
  setupWith_no_main env REMOTE_URL app h

/-- Witness for C3 at a configuration whose only window is labelled
"other". -/
theorem C3_missing_main_is_noop_witness :
    appNoMain.get_webview_window "main" = none ∧
    setup envOk appNoMain = ⟨appNoMain, [], .ok ()⟩ :=
  ⟨by decide, C3_missing_main_is_noop envOk appNoMain (by decide)⟩

/-- C4: when "main" is present, a failure of the URL-parse operation, the
title-set operation, or the navigate operation makes the setup callback return
the corresponding error rather than swallow it. -/
theorem C4_setup_propagates_errors (env : HostEnv) (urlStr : String)
    (app : AppState) (hmain : (app.get_webview_window "main").isSome = true) :
    (Url.parse urlStr = none →
      (setupWith env urlStr app).result = .error .parseErr) ∧
    ((Url.parse urlStr).isSome = true → env.setTitleFails = true →
      (setupWith env urlStr app).result = .error .titleErr) ∧
    ((Url.parse urlStr).isSome = true → env.setTitleFails = false →
      env.navigateFails = true →
      (setupWith env urlStr app).result = .error .navErr) := by
  obtain ⟨w, hw⟩ := Option.isSome_iff_exists.mp hmain
  refine ⟨fun hp => ?_, fun hp ht => ?_, fun hp ht hn => ?_⟩
  · rw [setupWith_parse_fail env urlStr app w hw hp]
  · obtain ⟨u, hu⟩ := Option.isSome_iff_exists.mp hp
    rw [setupWith_title_fail env urlStr app w u hw hu ht]
  · obtain ⟨u, hu⟩ := Option.isSome_iff_exists.mp hp
    rw [setupWith_nav_fail env urlStr app w u hw hu ht hn]

/-- Witness for C4 at the one-window configuration, with the fixed URL and an
environment in which the host operations fail. -/
theorem C4_setup_propagates_errors_witness :
    (appMain.get_webview_window "main").isSome = true ∧
    ((Url.parse REMOTE_URL = none →
       (setupWith ⟨true, true⟩ REMOTE_URL appMain).result = .error .parseErr) ∧
     ((Url.parse REMOTE_URL).isSome = true →
       (⟨true, true⟩ : HostEnv).setTitleFails = true →
       (setupWith ⟨true, true⟩ REMOTE_URL appMain).result = .error .titleErr) ∧
     ((Url.parse REMOTE_URL).isSome = true →
       (⟨true, true⟩ : HostEnv).setTitleFails = false →
       (⟨true, true⟩ : HostEnv).navigateFails = true →
       (setupWith ⟨true, true⟩ REMOTE_URL appMain).result = .error .navErr)) :=
  ⟨by decide,
   C4_setup_propagates_errors ⟨true, true⟩ REMOTE_URL appMain (by decide)⟩

/-- C5: were the fixed URL constant malformed, startup would fail fast: with
"main" present, `main` terminates with the diagnostic of its `.expect` instead
of reaching the running event loop, and no navigation is ever attempted. -/
theorem C5_malformed_url_fails_fast (env : HostEnv) (urlStr : String)
    (app : AppState) (hmain : (app.get_webview_window "main").isSome = true)
    (hbad : Url.parse urlStr = none) :
    (runApp env urlStr app).1 =
      .fatal "error while running tauri application" ∧
    "error while running tauri application" ≠ "" ∧
    ((runApp env urlStr app).2.all fun op => !op.isNavigate) = true := by
  obtain ⟨w, hw⟩ := Option.isSome_iff_exists.mp hmain
  unfold runApp
  rw [setupWith_parse_fail env urlStr app w hw hbad]
  exact ⟨rfl, by decide, rfl⟩

/-- Witness for C5 at the one-window configuration with a deliberately
invalid URL string substituted for the constant. -/
theorem C5_malformed_url_fails_fast_witness :
    (appMain.get_webview_window "main").isSome = true ∧
    Url.parse "not a url" = none ∧
    ((runApp envOk "not a url" appMain).1 =
       .fatal "error while running tauri application" ∧
     "error while running tauri application" ≠ "" ∧
     ((runApp envOk "not a url" appMain).2.all fun op => !op.isNavigate)
       = true) :=
  ⟨by decide, by decide,
   C5_malformed_url_fails_fast envOk "not a url" appMain (by decide)
     (by decide)⟩

/-- C6 counterexample: at the default configuration with both host operations
succeeding, the setup trace is parse, then title-set, then navigate — not the
claimed title-set, then parse, then navigate. -/
theorem C6_claimed_order_counterexample :
    ((appMain.get_webview_window "main").isSome = true ∧
     envOk.setTitleFails = false ∧ envOk.navigateFails = false) ∧
    (setup envOk appMain).ops ≠
      [.set_title "main" "", .parseUrl REMOTE_URL, .navigate "main" mainUrl] ∧
    (setup envOk appMain).ops =
      [.parseUrl REMOTE_URL, .set_title "main" "", .navigate "main" mainUrl]
    := by decide

/-- C6 (amended): when "main" is present and the host operations succeed, the
setup callback performs its operations in the order: parse the fixed URL
constant, then set the window title to the empty string, then command the
window to navigate to the parsed URL. -/
theorem C6_operations_parse_title_navigate (env : HostEnv) (app : AppState)
    (hmain : (app.get_webview_window "main").isSome = true)
    (ht : env.setTitleFails = false) (hn : env.navigateFails = false) :
    (setup env app).ops =
      [.parseUrl REMOTE_URL, .set_title "main" "", .navigate "main" mainUrl]
    := by
  obtain ⟨w, hw⟩ := Option.isSome_iff_exists.mp hmain
  unfold setup
  rw [setupWith_all_ok env REMOTE_URL app w mainUrl hw Url_parse_remote ht hn]

/-- Witness for the amended C6 at the one-window configuration with both host
operations succeeding. -/
theorem C6_operations_parse_title_navigate_witness :
    (appMain.get_webview_window "main").isSome = true ∧
    envOk.setTitleFails = false ∧ envOk.navigateFails = false ∧
    (setup envOk appMain).ops =
      [.parseUrl REMOTE_URL, .set_title "main" "", .navigate "main" mainUrl]
    :=
  ⟨by decide, by decide, by decide,
   C6_operations_parse_title_navigate envOk appMain (by decide) (by decide)
     (by decide)⟩

/-- C7: the fixed constant "https://sya-os.vercel.app" is a well-formed
absolute URL, so the parse step succeeds, and the parse-error branch of setup
is unreachable in the shipped program (with its compiled-in constant). -/
theorem C7_remote_url_wellformed :
    Url.parse REMOTE_URL = some mainUrl ∧
    (Url.parse REMOTE_URL).isSome = true ∧
    ∀ env app, (setup env app).result ≠ .error .parseErr := by
  refine ⟨Url_parse_remote, by decide, fun env app => ?_⟩
  cases hm : app.get_webview_window "main" with
  | none =>
    unfold setup
    rw [setupWith_no_main env REMOTE_URL app hm]
    simp
  | some w =>
    by_cases ht : env.setTitleFails = true
    · unfold setup
      rw [setupWith_title_fail env REMOTE_URL app w mainUrl hm
        Url_parse_remote ht]
      simp
    · have ht' := eq_false_of_ne_true ht
      by_cases hn : env.navigateFails = true
      · unfold setup
        rw [setupWith_nav_fail env REMOTE_URL app w mainUrl hm
          Url_parse_remote ht' hn]
        simp
      · unfold setup
        rw [setupWith_all_ok env REMOTE_URL app w mainUrl hm
          Url_parse_remote ht' (eq_false_of_ne_true hn)]
        simp

/-- C8: the bootstrap sequence invokes the setup callback exactly once, and
the phases it passes through strictly ascend the order Uninit → Configured →
Setup-Complete → Running → Terminated: no reachable execution re-enters an
earlier state. -/
theorem C8_bootstrap_forward_only (env : HostEnv) (urlStr : String)
    (app : AppState) :
    setupCount (bootEvents env urlStr app) = 1 ∧
    List.Pairwise (fun p q => phaseIdx p < phaseIdx q)
      (phasesOf (bootEvents env urlStr app)) := by
  cases h : (setupWith env urlStr app).result with
  | ok u => simp only [bootEvents, h]; decide
  | error e => simp only [bootEvents, h]; decide

/-- C9: if the URL-parse step fails while "main" is present, the setup
callback returns the parse error having attempted nothing but the parse, so
every window — the "main" window's title included — is left unchanged. -/
theorem C9_parse_failure_leaves_state_unchanged (env : HostEnv)
    (urlStr : String) (app : AppState)
    (hmain : (app.get_webview_window "main").isSome = true)
    (hbad : Url.parse urlStr = none) :
    setupWith env urlStr app = ⟨app, [.parseUrl urlStr], .error .parseErr⟩ := by
  obtain ⟨w, hw⟩ := Option.isSome_iff_exists.mp hmain
  exact setupWith_parse_fail env urlStr app w hw hbad

/-- Witness for C9 at the one-window configuration with a deliberately
invalid URL string substituted for the constant. -/
theorem C9_parse_failure_leaves_state_unchanged_witness :
    (appMain.get_webview_window "main").isSome = true ∧
    Url.parse "not a url" = none ∧
    setupWith envOk "not a url" appMain =
      ⟨appMain, [.parseUrl "not a url"], .error .parseErr⟩ :=
  ⟨by decide, by decide,
   C9_parse_failure_leaves_state_unchanged envOk "not a url" appMain
     (by decide) (by decide)⟩

/-- C10: the setup callback touches only the window labelled "main": in every
execution, every window with a different label — its title and its navigation
target — is unchanged by setup. -/
theorem C10_other_windows_untouched (env : HostEnv) (app : AppState)
    (label : String) (h : label ≠ "main") :
    (setup env app).app.get_webview_window label =
      app.get_webview_window label := by
  cases hm : app.get_webview_window "main" with
  | none =>
    unfold setup
    rw [setupWith_no_main env REMOTE_URL app hm]
  | some w =>
    by_cases ht : env.setTitleFails = true
    · unfold setup
      rw [setupWith_title_fail env REMOTE_URL app w mainUrl hm
        Url_parse_remote ht]
    · have ht' := eq_false_of_ne_true ht
      by_cases hn : env.navigateFails = true
      · unfold setup
        rw [setupWith_nav_fail env REMOTE_URL app w mainUrl hm
          Url_parse_remote ht' hn]
        simp only [AppState.get_webview_window, AppState.set_title]
        exact lookupWin_updateWin_ne app.windows "main" label _ h
      · unfold setup
        rw [setupWith_all_ok env REMOTE_URL app w mainUrl hm
          Url_parse_remote ht' (eq_false_of_ne_true hn)]
        simp only [AppState.get_webview_window, AppState.set_title,
          AppState.navigate]
        rw [lookupWin_updateWin_ne _ "main" label _ h,
          lookupWin_updateWin_ne _ "main" label _ h]

/-- Witness for C10 at a two-window configuration, observing the unrelated
"side" window. -/
theorem C10_other_windows_untouched_witness :
    "side" ≠ "main" ∧
    (setup envOk appTwo).app.get_webview_window "side" =
      appTwo.get_webview_window "side" :=
  ⟨by decide, C10_other_windows_untouched envOk appTwo "side" (by decide)⟩

end SyaOS
